import Mathlib

/-!
Verification development for the gosnowflake result-set retrieval and
chunked-streaming subsystem.  The Go sources are shallowly embedded:
pure decision logic is translated to Lean functions over explicit data
(JSON responses become structures, HTTP responses become records of a
status code, headers and a byte list, goroutine completion order becomes
an explicit arrival list), and theorems are proved about the embeddings.
-/

/-- Error identifiers used by the driver (`ErrQueryStatus`,
`ErrQueryIsRunning`, ... in the Go sources).  The numeric table lives in a
file that is not part of the embedded sources; callers only compare the
identifiers for equality, so a sum type with an extra case for codes parsed
out of server responses is faithful. -/
inductive ErrNumber where
  | errQueryStatus
  | errQueryReportedError
  | errQueryIsRunning
  | errQueryIDFormat
  | errFailedToGetChunk
  | serverCode (n : Int)
deriving DecidableEq, Repr

/-- Embedding of the Go `SnowflakeError` struct (the fields used by the
result-retrieval subsystem). -/
structure SnowflakeError where
  number : ErrNumber
  sqlState : String := ""
  message : String := ""
  messageArgs : List String := []
  queryID : String := ""
  includeQueryID : Bool := false
deriving DecidableEq, Repr

/-- Text of `errMsgQueryStatus`; the literal lives in the missing errors
file, only the identifier matters for the classification proofs. -/
def errMsgQueryStatus : String := "server returned an error for the query"

/-- Query status vocabulary returned by the server, from `queryResultStatus`
in the source. -/
inductive queryResultStatus where
  | SFQueryRunning
  | SFQueryAborting
  | SFQuerySuccess
  | SFQueryFailedWithError
  | SFQueryAborted
  | SFQueryQueued
  | SFQueryFailedWithIncident
  | SFQueryDisconnected
  | SFQueryResumingWarehouse
  | SFQueryQueueRepairingWarehouse
  | SFQueryRestarted
  | SFQueryBlocked
  | SFQueryNoData
deriving DecidableEq, Repr

open queryResultStatus

/-- `queryResultStatus.isRunning` from the source: the running set. -/
def queryResultStatus.isRunning : queryResultStatus → Bool
  | SFQueryRunning | SFQueryResumingWarehouse | SFQueryQueued
  | SFQueryQueueRepairingWarehouse | SFQueryNoData => true
  | _ => false

/-- `queryResultStatus.isError` from the source: the error set. -/
def queryResultStatus.isError : queryResultStatus → Bool
  | SFQueryAborting | SFQueryFailedWithError | SFQueryAborted
  | SFQueryFailedWithIncident | SFQueryDisconnected | SFQueryBlocked => true
  | _ => false

/-- `strToQueryStatus` from the source: the fixed vocabulary map.  A Go map
lookup of an unknown key yields the zero value, which for this enum is
`SFQueryRunning`. -/
def strToQueryStatus : String → queryResultStatus
  | "RUNNING" => SFQueryRunning
  | "ABORTING" => SFQueryAborting
  | "SUCCESS" => SFQuerySuccess
  | "FAILED_WITH_ERROR" => SFQueryFailedWithError
  | "ABORTED" => SFQueryAborted
  | "QUEUED" => SFQueryQueued
  | "FAILED_WITH_INCIDENT" => SFQueryFailedWithIncident
  | "DISCONNECTED" => SFQueryDisconnected
  | "RESUMING_WAREHOUSE" => SFQueryResumingWarehouse
  | "QUEUED_REPAIRING_WAREHOUSE" => SFQueryQueueRepairingWarehouse
  | "RESTARTED" => SFQueryRestarted
  | "BLOCKED" => SFQueryBlocked
  | "NO_DATA" => SFQueryNoData
  | _ => SFQueryRunning

/-- One entry of a status-poll response (`retStatus` in the source). -/
structure retStatus where
  status : String
  sqlText : String := ""
  startTime : Int := 0
  endTime : Int := 0
  errorCode : String
  errorMessage : String
deriving DecidableEq, Repr

/-- A status-poll response (`statusResponse` in the source). -/
structure statusResponse where
  queries : List retStatus
  message : String := ""
  code : String := ""
  success : Bool
deriving DecidableEq, Repr

/-- Classification part of `snowflakeConn.checkQueryStatus`: given the
decoded status-poll response, produce the `(*retStatus, error)` pair the Go
function returns.  Transport and JSON-decoding failures happen before this
logic and are out of scope. -/
def checkQueryStatus (qid : String) (resp : statusResponse) :
    Option retStatus × Option SnowflakeError :=
  if !resp.success || resp.queries.length == 0 then
    (none, some { number := .errQueryStatus,
                  message := "status query returned not-success or no status returned. Please retry" })
  else
    match resp.queries with
    | [] =>
      (none, some { number := .errQueryStatus,
                    message := "status query returned not-success or no status returned. Please retry" })
    | queryRet :: _ =>
      if queryRet.errorCode != "" then
        (some queryRet,
         some { number := .errQueryStatus,
                message := errMsgQueryStatus,
                messageArgs := [queryRet.errorCode, queryRet.errorMessage],
                includeQueryID := true, queryID := qid })
      else
        let qStatus := strToQueryStatus queryRet.status
        if qStatus.isError then
          (some queryRet,
           some { number := .errQueryReportedError,
                  message := queryRet.errorMessage ++ ": status from server: [" ++ queryRet.status ++ "]",
                  includeQueryID := true, queryID := qid })
        else if qStatus.isRunning then
          (some queryRet,
           some { number := .errQueryIsRunning,
                  message := queryRet.errorMessage ++ ": status from server: [" ++ queryRet.status ++ "]",
                  includeQueryID := true, queryID := qid })
        else
          (some queryRet, none)

/-- SQL state used by chunk-fetch failures; the literal lives in the missing
errors file, only the identifier matters here. -/
def SQLStateConnectionFailure : String := "08006"

/-- Text of `errMsgFailedToGetChunk`; the literal lives in the missing
errors file. -/
def errMsgFailedToGetChunk : String := "failed to get the chunk"

/-- Streaming readers produced while downloading a chunk.  `respBody` is the
raw HTTP response body; `buf` is `bufio.NewReader` (not an `io.ReadCloser`);
`gzipReader` is `gzip.NewReader` (an `io.ReadCloser` whose `Close` does not
forward to the wrapped reader); `wrapReader` is the source's `wrapReader`
struct pairing an inner reader with the stream its `Close` must release. -/
inductive Reader where
  | respBody (body : List Nat)
  | buf (r : Reader)
  | gzipReader (r : Reader)
  | wrapReader (r : Reader) (wrapped : Reader)
deriving DecidableEq, Repr

/-- Whether a reader value satisfies the Go `io.ReadCloser` interface (the
type assertion inside `wrapReader.Close`). -/
def Reader.isReadCloser : Reader → Bool
  | .respBody _ => true
  | .buf _ => false
  | .gzipReader _ => true
  | .wrapReader _ _ => true

/-- Raw HTTP bodies released when `Close` is called on a reader, following
the source's close semantics: `gzip.Reader.Close` does not forward close,
`bufio.Reader` has no close, `wrapReader.Close` closes the inner reader
when it is an `io.ReadCloser` and then always closes the wrapped stream. -/
def Reader.closeReleases : Reader → List (List Nat)
  | .respBody body => [body]
  | .buf _ => []
  | .gzipReader _ => []
  | .wrapReader r wrapped =>
      (if r.isReadCloser then r.closeReleases else []) ++ wrapped.closeReleases

/-- Whether the produced reader took the gzip decompression branch. -/
def Reader.isGzipWrapped : Reader → Bool
  | .wrapReader (.gzipReader _) _ => true
  | _ => false

/-- An HTTP response to a chunk fetch.  `contentEncoding` stands for the
declared content-encoding header, which the source never consults. -/
structure chunkHTTPResponse where
  statusCode : Nat
  contentEncoding : String := ""
  body : List Nat
deriving DecidableEq, Repr

/-- Error produced by a chunk fetch: either a `SnowflakeError` or a plain
transport/read error. -/
inductive chunkFetchErr where
  | sf (e : SnowflakeError)
  | ioErr
deriving DecidableEq, Repr

/-- `ArrowStreamBatch.downloadChunkStreamHelper` after the network GET
returned `resp`: non-200 statuses produce the chunk-fetch `SnowflakeError`;
otherwise the first two bytes are peeked and the body is wrapped either as
a gzip stream or directly, in both cases inside `wrapReader` so that a
close releases the response body. -/
def downloadChunkStreamHelper (idx : Nat) (resp : chunkHTTPResponse) :
    Except chunkFetchErr Reader :=
  if resp.statusCode ≠ 200 then
    .error (.sf { number := .errFailedToGetChunk,
                  sqlState := SQLStateConnectionFailure,
                  message := errMsgFailedToGetChunk,
                  messageArgs := [toString idx] })
  else
    match resp.body with
    | b0 :: b1 :: _ =>
      if b0 == 0x1f && b1 == 0x8b then
        .ok (.wrapReader (.gzipReader (.buf (.respBody resp.body))) (.respBody resp.body))
      else
        .ok (.wrapReader (.buf (.respBody resp.body)) (.respBody resp.body))
    | _ => .error .ioErr

/-- Multi-statement marker statement type (`statementTypeIDMulti`). -/
def statementTypeIDMulti : Int := 0x1000

/-- The response-data fields of `execResponseData` consulted by the
result-construction logic. -/
structure execResponseData where
  rowTypeNames : List String := []
  resultIDs : String := ""
  sqlState : String := ""
  queryID : String := ""
  statementTypeID : Int := 0
deriving DecidableEq, Repr

/-- The fields of `execResponse` consulted by the embedded logic. -/
structure execResponse where
  data : execResponseData := {}
  message : String := ""
  code : String := ""
  success : Bool := true
deriving DecidableEq, Repr

/-- `isMultiStmt`: a multi-statement response is marked by the multi
statement type and the sentinel first row-type name (per the in-source
definition; an empty row-type list is treated as not matching). -/
def isMultiStmt (data : execResponseData) : Bool :=
  data.statementTypeID == statementTypeIDMulti &&
    data.rowTypeNames.headD "" == "multiple statement execution"

/-- Code reported while a submit-sync query is still in progress
(`queryInProgressCode`; the literal lives in the missing restful file). -/
def queryInProgressCode : String := "333333"

/-- Outcome of `queryContextInternal` after a successful `exec` round
trip. -/
inductive QueryOutcome where
  | rowsInProgress
  | rows (chunkDownloaderCount : Nat)
  | failure (e : SnowflakeError)
deriving DecidableEq, Repr

/-- Result-construction logic of `snowflakeConn.queryContextInternal` after
`exec` succeeded: the submit-sync in-progress short circuit, then the
multi-statement branch (`handleMultiQuery` attaches
`attachedByMultiQuery`-many child chunk downloaders to the rows object),
whose empty-result-identifiers check fails with the protocol-violation
error, then the single-statement branch attaching one downloader. -/
def queryContextInternalBuild (resp : execResponse) (submitSync : Bool)
    (attachedByMultiQuery : Nat) : QueryOutcome :=
  if submitSync && resp.code == queryInProgressCode then
    .rowsInProgress
  else if isMultiStmt resp.data then
    if resp.data.resultIDs == "" && attachedByMultiQuery == 0 then
      .failure { number := .errQueryIDFormat,
                 sqlState := resp.data.sqlState,
                 message := "ExecResponse for multi-statement request had no ResultIDs",
                 queryID := resp.data.queryID }
    else
      .rows attachedByMultiQuery
  else
    .rows 1

/-- Modelled from the spec: the per-connection response cache keyed by
result path (`execRespCache`; its implementing file is absent from the
embedded sources, the spec specifies a cache keyed by result path that is
invalidated only by connection teardown).  Nothing in the representation
depends on time. -/
def execRespCache : Type := List (String × execResponse)

/-- Modelled from the spec: `execRespCache.load`, an association lookup. -/
def cacheLoad (cache : execRespCache) (key : String) : Option execResponse :=
  match cache with
  | [] => none
  | (k, v) :: rest => if k == key then some v else cacheLoad rest key

/-- Modelled from the spec: `execRespCache.store`, inserting an entry. -/
def cacheStore (cache : execRespCache) (key : String) (v : execResponse) :
    execRespCache :=
  (key, v) :: cache

/-- `snowflakeConn.getQueryResultResp`: consult the connection's cache for
the result path and return the stored response, otherwise perform the by-id
network fetch (abstracted as `fetch`), decode it and store it.  The boolean
in the result records whether a network fetch happened. -/
def getQueryResultResp (fetch : String → Except Unit execResponse)
    (cache : execRespCache) (resultPath : String) :
    Except Unit (execResponse × execRespCache × Bool) :=
  match cacheLoad cache resultPath with
  | some respd => .ok (respd, cache, false)
  | none =>
    match fetch resultPath with
    | .error e => .error e
    | .ok respd => .ok (respd, cacheStore cache resultPath respd, true)

/-- `snowflakeConn.cleanup` as far as the response cache is concerned: the
cache is released at connection teardown (and only there). -/
def cleanupCache (_cache : execRespCache) : execRespCache := []

/-- One Arrow record batch of a chunk: `numRows` is the declared row count
(`record.NumRows()`), `columns` the decoded per-column values
(`arrowToValue` output for each column). -/
structure RecordBatch (α : Type) where
  numRows : Nat
  columns : List (List α)
deriving DecidableEq, Repr

/-- Rows built from one record batch exactly as the source loop fills
`chunkRows` for a single record: row `r` receives entry `c` of column `c`'s
decoded values. -/
def recordToRows [Inhabited α] (rec : RecordBatch α) : List (List α) :=
  (List.range rec.numRows).map fun r => rec.columns.map fun col => col.getD r default

/-- `arrowResultChunk.decodeArrowChunk`: iterate the IPC reader over the
record batches of the chunk.  The source rebinds `chunkRows` with a fresh
`make` for every record, so each iteration replaces the previously decoded
rows; the chunk row counter accumulates across batches.  Returns the final
`chunkRows` together with the accumulated `rowCount`. -/
def decodeArrowChunk [Inhabited α] (batches : List (RecordBatch α)) :
    List (List α) × Nat :=
  batches.foldl (fun acc rec => (recordToRows rec, acc.2 + rec.numRows)) ([], 0)

/-- Modelled from the spec: base-10 `strconv.ParseInt` as used by the
absent converter file — succeeds exactly on nonempty all-digit character
sequences with an optional leading minus sign. -/
def parseInt10 (s : List Char) : Except Unit Int :=
  let core : List Char → Int → Except Unit Int := fun t sign =>
    if t.isEmpty then .error ()
    else if t.all Char.isDigit then
      .ok (sign * t.foldl (fun a c => a * 10 + ((c.toNat : Int) - 48)) 0)
    else .error ()
  match s with
  | '-' :: rest => core rest (-1)
  | l => core l 1

/-- Split a character sequence at its first '.' (the scan loop of the
absent converter's timestamp decoder). -/
def splitAtDot : List Char → List Char × Option (List Char)
  | [] => ([], none)
  | c :: rest =>
    if c = '.' then ([], some rest)
    else
      let (pre, suf) := splitAtDot rest
      (c :: pre, suf)

/-- Modelled from the spec: `extractTimestamp` (converter file absent from
the embedded sources).  A textual timestamp cell is `<epoch-seconds>` or
`<epoch-seconds>.<fractional>`, split at the first '.'; the fraction is
right-padded with zeros to nine digits (nanoseconds); malformed numeric
parts signal a conversion error. -/
def extractTimestamp (srcValue : String) : Except Unit (Int × Int) :=
  match splitAtDot srcValue.data with
  | (secs, none) =>
    match parseInt10 secs with
    | .error e => .error e
    | .ok sec => .ok (sec, 0)
  | (secs, some frac) =>
    match parseInt10 secs with
    | .error e => .error e
    | .ok sec =>
      match parseInt10 (frac ++ List.replicate (9 - frac.length) '0') with
      | .error e => .error e
      | .ok nsec => .ok (sec, nsec)

/-- Modelled from the spec: the textual decoding path for a local-time-zone
timestamp cell (`stringToValue`, case `timestamp_ltz`), reduced to the
epoch-nanosecond instant of the `time.Unix(sec, nsec)` value it builds. -/
def stringToValueTimestampLtz (srcValue : String) : Except Unit Int :=
  match extractTimestamp srcValue with
  | .error e => .error e
  | .ok (sec, nsec) => .ok (sec * 1000000000 + nsec)

/-- Modelled from the spec: the per-chunk result slot holding chunk `i`'s
decoded rows once the worker that claimed index `i` has completed.
`arrivals` is the completion order of the worker pool; each completion
lands in the slot of its claimed index. -/
def slotLookup (arrivals : List (Nat × List α)) (i : Nat) : Option (List α) :=
  (arrivals.find? fun p => p.1 == i).map Prod.snd

/-- Rows delivered to the consumer: slots are read in strict chunk-index
order (the consumer blocks on slot `i` until it fills, never earlier
slots), each chunk's rows in storage order; `none` if some fetch never
completed. -/
def deliveredRows (arrivals : List (Nat × List α)) (n : Nat) :
    Option (List α) :=
  ((List.range n).mapM (slotLookup arrivals)).map List.flatten

/-- The row sequence of a single-threaded sequential fetch of the same
chunks. -/
def sequentialFetch (chunks : List (List α)) : List α := chunks.flatten

/-- Modelled from the spec: the consumer-side `next` of the chunk
downloader (its implementing file is absent from the embedded sources).
The state is the not-yet-delivered suffix: the cursor's remainder of the
current chunk followed by the later chunks.  `next` exhausts the current
chunk's in-memory rows first, advances across chunk boundaries, and
signals end-of-data (`none`, the Go `io.EOF`) once no rows remain. -/
def chunkDownloaderNext : List (List α) → Option α × List (List α)
  | [] => (none, [])
  | [] :: rest => chunkDownloaderNext rest
  | (x :: xs) :: rest => (some x, xs :: rest)

/-- All rows obtained by iterating `chunkDownloaderNext` until end of
data. -/
def drainRows : List (List α) → List α
  | [] => []
  | [] :: rest => drainRows rest
  | (x :: xs) :: rest => x :: drainRows (xs :: rest)
termination_by l => (l.map List.length).sum + l.length
decreasing_by
  all_goals simp_arith [List.map_cons, List.sum_cons]

/-- The rows-object status vocabulary.  The string constants live in a file
absent from the embedded sources; they are pairwise distinct and distinct
from the Go zero value of the status type, which a rows object keeps when
no code path assigns a status (e.g. `buildRowsForRunningQuery`). -/
inductive queryStatus where
  | zeroStatus
  | queryStatusInProgress
  | queryStatusComplete
  | queryFailed
deriving DecidableEq, Repr

/-- An error value carried by the rows object: a structured driver error or
a plain formatted one. -/
inductive driverError where
  | sf (e : SnowflakeError)
  | plain (msg : String)
deriving DecidableEq, Repr

/-- State of a `snowflakeRows` object.  `chanDelivers` is the value the
async error channel will deliver to the first (blocking) read;
`chanReads` counts channel reads; `downloader` is the pending row suffix of
the attached chunk downloader (or `none` when no downloader was
attached). -/
structure snowflakeRowsState (α : Type) where
  status : queryStatus
  err : Option driverError := none
  chanDelivers : Option driverError := none
  chanReads : Nat := 0
  downloader : Option (List (List α)) := none
deriving DecidableEq, Repr

/-- `snowflakeRows.waitForAsyncQueryStatus`: an in-progress rows object
blocks on the error channel once, marking itself complete or failed; a
failed rows object keeps returning its stored error; any other status
passes through with no effect. -/
def waitForAsyncQueryStatus (s : snowflakeRowsState α) :
    Option driverError × snowflakeRowsState α :=
  match s.status with
  | .queryStatusInProgress =>
    let s' := { s with chanReads := s.chanReads + 1 }
    match s.chanDelivers with
    | some e => (some e, { s' with status := .queryFailed, err := some e })
    | none => (none, { s' with status := .queryStatusComplete })
  | .queryFailed => (s.err, s)
  | _ => (none, s)

/-- Result of one `snowflakeRows.Next` call. -/
inductive NextResult (α : Type) where
  | row (r : α)
  | eof
  | failure (e : driverError)
deriving DecidableEq, Repr

/-- Text of `errMsgAsyncWithNoResults`. -/
def errMsgAsyncWithNoResults : String :=
  "async with no results: don't use the result of an async execution"

/-- `snowflakeRows.Next`: gate through `waitForAsyncQueryStatus`, require a
chunk downloader, and pull the next row; `io.EOF` surfaces as `eof` (the
source additionally calls the downloader's no-op `reset`). -/
def snowflakeRowsNext (s : snowflakeRowsState α) :
    NextResult α × snowflakeRowsState α :=
  match waitForAsyncQueryStatus s with
  | (some e, s') => (.failure e, s')
  | (none, s') =>
    match s'.downloader with
    | none => (.failure (.plain errMsgAsyncWithNoResults), s')
    | some pending =>
      match chunkDownloaderNext pending with
      | (none, p') => (.eof, { s' with downloader := some p' })
      | (some x, p') => (.row x, { s' with downloader := some p' })


/-! Helper lemmas shared by the claim theorems. -/

/-- Running and error status sets are disjoint. -/
theorem isRunning_isError_disjoint (st : queryResultStatus) :
    ¬(st.isRunning = true ∧ st.isError = true) := by
  cases st <;> simp [queryResultStatus.isRunning, queryResultStatus.isError]

/-- Association search with pairwise distinct keys finds the entry of any
present key. -/
theorem find?_eq_of_mem_of_nodup_keys {β : Type} (l : List (Nat × β)) (i : Nat) (c : β)
    (hmem : (i, c) ∈ l) (hnd : (l.map Prod.fst).Nodup) :
    l.find? (fun p => p.1 == i) = some (i, c) := by
  induction l with
  | nil => simp at hmem
  | cons kv rest ih =>
    obtain ⟨k, v⟩ := kv
    simp only [List.map_cons, List.nodup_cons] at hnd
    rcases List.mem_cons.mp hmem with heq | hrest
    · cases heq
      simp [List.find?]
    · have hk : k ≠ i := by
        intro hki
        exact hnd.1 (hki ▸ List.mem_map_of_mem Prod.fst hrest)
      rw [List.find?_cons_of_neg _ (by simpa using hk), ih hrest hnd.2]

/-- When the completion order is any permutation of the indexed chunks,
every slot resolves to its own chunk. -/
theorem slotLookup_of_perm {α : Type} (chunks : List (List α))
    (arrivals : List (Nat × List α)) (h : arrivals.Perm chunks.enum)
    (i : Nat) (hi : i < chunks.length) :
    slotLookup arrivals i = some (chunks.get ⟨i, hi⟩) := by
  have hmem : (i, chunks.get ⟨i, hi⟩) ∈ arrivals := by
    refine (h.mem_iff).mpr ?_
    have : chunks[i]? = some (chunks.get ⟨i, hi⟩) := by
      simp [List.getElem?_eq_getElem hi]
    exact List.mk_mem_enum_iff_getElem?.mpr this
  have hnd : (arrivals.map Prod.fst).Nodup := by
    refine ((h.map Prod.fst).nodup_iff).mpr ?_
    exact List.nodup_enum_map_fst chunks
  unfold slotLookup
  rw [find?_eq_of_mem_of_nodup_keys arrivals i _ hmem hnd]
  rfl

/-- `mapM` over the option monad succeeds pointwise. -/
theorem mapM_eq_some_map {β γ : Type} (l : List β) (f : β → Option γ) (g : β → γ)
    (h : ∀ x ∈ l, f x = some (g x)) : l.mapM f = some (l.map g) := by
  induction l with
  | nil => rfl
  | cons x xs ih =>
    rw [List.mapM_cons, h x (List.mem_cons_self x xs),
      ih (fun y hy => h y (List.mem_cons_of_mem x hy))]
    rfl

/-- Reading back each index of a list over its range reproduces the list. -/
theorem map_getD_range {β : Type} (l : List β) (d : β) :
    (List.range l.length).map (fun i => l.getD i d) = l := by
  apply List.ext_getElem
  · simp
  · intro i h1 h2
    simp [List.getD_eq_getElem?_getD, List.getElem?_eq_getElem h2]

/-- Draining a chunk list yields the first chunk then the drained rest. -/
theorem drainRows_cons {α : Type} (c : List α) (rest : List (List α)) :
    drainRows (c :: rest) = c ++ drainRows rest := by
  induction c with
  | nil => rw [drainRows]; simp
  | cons x xs ih => rw [drainRows, ih]; simp

/-- Draining delivers exactly the concatenation in chunk order. -/
theorem drainRows_eq_flatten {α : Type} (l : List (List α)) :
    drainRows l = l.flatten := by
  induction l with
  | nil => simp [drainRows]
  | cons c rest ih => rw [drainRows_cons, ih, List.flatten_cons]

/-- A `next` call that reports end of data leaves an empty pending list. -/
theorem chunkDownloaderNext_none {α : Type} (l : List (List α))
    (h : (chunkDownloaderNext l).1 = (none : Option α)) :
    (chunkDownloaderNext l).2 = [] := by
  induction l with
  | nil => rfl
  | cons c rest ih =>
    cases c with
    | nil => rw [chunkDownloaderNext] at h ⊢; exact ih h
    | cons x xs => simp [chunkDownloaderNext] at h

/-- A successful wait leaves a state on which waiting again is a no-op,
whatever happened to the downloader field in between. -/
theorem waitFor_none_stable {α : Type} (s s' : snowflakeRowsState α)
    (h : waitForAsyncQueryStatus s = (none, s')) (d : Option (List (List α))) :
    waitForAsyncQueryStatus { s' with downloader := d }
      = (none, { s' with downloader := d }) := by
  obtain ⟨st, er, ch, cr, dl⟩ := s
  cases st <;> cases ch <;>
    simp only [waitForAsyncQueryStatus, Prod.mk.injEq] at h <;>
    (obtain ⟨h1, h2⟩ := h
     subst h2
     simp [waitForAsyncQueryStatus, h1])

/-! Claim theorems. -/

/-- C1: for every result set whose chunks complete fetching in any order
under the bounded worker pool (`arrivals` ranges over arbitrary
permutations of the indexed chunks), reading the per-chunk result slots in
strict chunk-index order delivers all of chunk 0's rows before chunk 1's
and, within each chunk, in storage order: exactly the row sequence of a
single-threaded sequential fetch, which is also what iterating the
downloader's `next` delivers — concurrent prefetching never reorders the
sequence observed by the consumer. -/
theorem c1_strict_chunk_order {α : Type} (chunks : List (List α))
    (arrivals : List (Nat × List α)) (h : arrivals.Perm chunks.enum) :
    deliveredRows arrivals chunks.length = some (sequentialFetch chunks)
    ∧ drainRows chunks = sequentialFetch chunks := by
  constructor
  · have hp : ∀ i ∈ List.range chunks.length,
        slotLookup arrivals i = some (chunks.getD i []) := by
      intro i hi
      have hi' : i < chunks.length := List.mem_range.mp hi
      rw [slotLookup_of_perm chunks arrivals h i hi']
      congr 1
      simp [List.getD_eq_getElem?_getD, List.getElem?_eq_getElem hi']
    unfold deliveredRows
    rw [mapM_eq_some_map _ _ _ hp, map_getD_range chunks ([] : List α)]
    rfl
  · simpa [sequentialFetch] using drainRows_eq_flatten chunks

/-- C1 witness: the spec's example result set (inline chunk rows 1,2 and a
remote chunk 3,4,5) with the remote chunk completing first still delivers
1,2,3,4,5. -/
theorem c1_strict_chunk_order_witness :
    ([((1 : Nat), [3, 4, 5]), (0, [1, 2])] : List (Nat × List Nat)).Perm
        ([[1, 2], [3, 4, 5]] : List (List Nat)).enum
    ∧ deliveredRows ([((1 : Nat), [3, 4, 5]), (0, [1, 2])] : List (Nat × List Nat)) 2
        = some [1, 2, 3, 4, 5] :=
  ⟨by decide, (c1_strict_chunk_order [[1, 2], [3, 4, 5]]
      [((1 : Nat), [3, 4, 5]), (0, [1, 2])] (by decide)).1⟩

/-- C9: once `snowflakeRows.Next` signals end of data, every subsequent
call signals it again with the rows state unchanged — an idempotent
terminal condition with no row delivered twice and no pending chunk left
to fetch. -/
theorem c9_eof_idempotent {α : Type} (s s₁ : snowflakeRowsState α)
    (h : snowflakeRowsNext s = (.eof, s₁)) :
    snowflakeRowsNext s₁ = (.eof, s₁) ∧ s₁.downloader = some [] := by
  rcases hw : waitForAsyncQueryStatus s with ⟨o, s'⟩
  simp only [snowflakeRowsNext, hw] at h
  cases o with
  | some e => simp at h
  | none =>
    cases hd : s'.downloader with
    | none => simp only [hd] at h; simp at h
    | some pending =>
      simp only [hd] at h
      rcases hn : chunkDownloaderNext pending with ⟨ro, p'⟩
      simp only [hn] at h
      cases ro with
      | some x => simp at h
      | none =>
        have hp : p' = [] := by
          have hz := chunkDownloaderNext_none pending (by rw [hn])
          rw [hn] at hz
          exact hz
        subst hp
        simp only [Prod.mk.injEq] at h
        obtain ⟨-, h2⟩ := h
        subst h2
        refine ⟨?_, rfl⟩
        have hw2 := waitFor_none_stable s s' hw (some [])
        simp only [snowflakeRowsNext, hw2]
        simp [chunkDownloaderNext]

/-- C9 witness: a completed rows object whose downloader is exhausted
signals end of data and keeps doing so. -/
theorem c9_eof_idempotent_witness :
    snowflakeRowsNext
        ({ status := .queryStatusComplete, downloader := some [] } : snowflakeRowsState Nat)
      = (.eof, { status := .queryStatusComplete, downloader := some [] })
    ∧ (snowflakeRowsNext
          ({ status := .queryStatusComplete, downloader := some [] } : snowflakeRowsState Nat)
        = (.eof, { status := .queryStatusComplete, downloader := some [] })
      ∧ ({ status := .queryStatusComplete, downloader := some [] }
            : snowflakeRowsState Nat).downloader = some []) :=
  ⟨rfl, c9_eof_idempotent
    ({ status := .queryStatusComplete, downloader := some [] } : snowflakeRowsState Nat)
    ({ status := .queryStatusComplete, downloader := some [] } : snowflakeRowsState Nat) rfl⟩

/-- C10 counterexample: the claim says `waitForAsyncQueryStatus` returns
nil only when the status is (or transitions to) `QueryStatusComplete`, but
a rows object whose status was never assigned (the zero status, as built by
`buildRowsForRunningQuery`) gets nil back while its status stays the zero
status, not `QueryStatusComplete`. -/
theorem c10_counterexample :
    (waitForAsyncQueryStatus
        ({ status := .zeroStatus, downloader := some [] } : snowflakeRowsState Nat)).1 = none
    ∧ (waitForAsyncQueryStatus
        ({ status := .zeroStatus, downloader := some [] } : snowflakeRowsState Nat)).2.status
        ≠ .queryStatusComplete := by
  constructor
  · rfl
  · intro hcontra
    simp [waitForAsyncQueryStatus] at hcontra

/-- C10 (amended): once a rows object's status is `QueryFailed`, the stored
error is returned by `waitForAsyncQueryStatus` (hence by every public
operation gated through it, shown here for `Next`) and the state — in
particular the status — is untouched; `waitForAsyncQueryStatus` returns nil
exactly when the rows object is neither failed-with-a-stored-error nor
in-progress-with-an-error-delivering-channel (so besides the
`QueryStatusComplete` cases this includes the never-assigned zero status);
whenever nil comes back the status either becomes `QueryStatusComplete` or
the state is untouched; and the async error channel is read at most once
per rows object — a repeated call never reads again. -/
theorem c10_failed_sticky_amended {α : Type} :
    (∀ (s : snowflakeRowsState α) (e : driverError),
        s.status = .queryFailed → s.err = some e →
          waitForAsyncQueryStatus s = (some e, s)
          ∧ snowflakeRowsNext s = (.failure e, s))
    ∧ (∀ s : snowflakeRowsState α,
        (waitForAsyncQueryStatus s).1 = none ↔
          ((s.status = .queryStatusInProgress → s.chanDelivers = none)
            ∧ (s.status = .queryFailed → s.err = none)))
    ∧ (∀ s : snowflakeRowsState α,
        (waitForAsyncQueryStatus s).1 = none →
          (waitForAsyncQueryStatus s).2.status = .queryStatusComplete
          ∨ (waitForAsyncQueryStatus s).2 = s)
    ∧ (∀ s : snowflakeRowsState α,
        (waitForAsyncQueryStatus s).2.chanReads ≤ s.chanReads + 1
        ∧ (waitForAsyncQueryStatus ((waitForAsyncQueryStatus s).2)).2.chanReads
            = (waitForAsyncQueryStatus s).2.chanReads) := by
  refine ⟨?_, ?_, ?_, ?_⟩
  · intro s e hst herr
    constructor
    · simp [waitForAsyncQueryStatus, hst, herr]
    · simp [snowflakeRowsNext, waitForAsyncQueryStatus, hst, herr]
  · intro s
    obtain ⟨st, er, ch, cr, dl⟩ := s
    cases st <;> cases ch <;> cases er <;>
      simp [waitForAsyncQueryStatus]
  · intro s h
    obtain ⟨st, er, ch, cr, dl⟩ := s
    cases st <;> cases ch <;>
      simp_all [waitForAsyncQueryStatus]
  · intro s
    obtain ⟨st, er, ch, cr, dl⟩ := s
    cases st <;> cases ch <;>
      simp [waitForAsyncQueryStatus]

/-- C10 witness: a concrete failed rows object keeps returning its stored
error from both `waitForAsyncQueryStatus` and `Next`. -/
theorem c10_failed_sticky_amended_witness :
    waitForAsyncQueryStatus
        ({ status := .queryFailed, err := some (.plain "boom"), downloader := some [[7]] }
          : snowflakeRowsState Nat)
      = (some (.plain "boom"),
          { status := .queryFailed, err := some (.plain "boom"), downloader := some [[7]] })
    ∧ snowflakeRowsNext
        ({ status := .queryFailed, err := some (.plain "boom"), downloader := some [[7]] }
          : snowflakeRowsState Nat)
      = (.failure (.plain "boom"),
          { status := .queryFailed, err := some (.plain "boom"), downloader := some [[7]] }) :=
  (c10_failed_sticky_amended.1
    ({ status := .queryFailed, err := some (.plain "boom"), downloader := some [[7]] }
      : snowflakeRowsState Nat)
    (.plain "boom") rfl rfl)

/-- C2 counterexample: the claim requires `ErrQueryIsRunning` whenever the
status maps into the running set, but a response carrying a non-empty error
code together with status `RUNNING` is classified by the error-code branch
first, yielding an `ErrQueryStatus` error instead. -/
theorem c2_counterexample :
    (strToQueryStatus "RUNNING").isRunning = true
    ∧ (checkQueryStatus "qid-1"
        { success := true,
          queries := [{ status := "RUNNING", errorCode := "604", errorMessage := "canceled" }] }).2
      = some { number := .errQueryStatus, message := errMsgQueryStatus,
               messageArgs := ["604", "canceled"], includeQueryID := true, queryID := "qid-1" }
    ∧ ErrNumber.errQueryStatus ≠ ErrNumber.errQueryIsRunning := by
  refine ⟨rfl, ?_, by decide⟩
  rfl

/-- C2 (amended): for every status-poll response that reports success and
carries at least one status entry, `checkQueryStatus` classifies it into
exactly one of three outcomes: nil exactly when the entry has no error code
and its status maps to a state that is neither running nor error; an
`ErrQueryIsRunning` error exactly when the entry has no error code and its
status maps to the running set; and a terminal error exactly when the entry
carries a non-empty error code or its status maps to the error set — in
the former case the error carries the server-provided error code and
message as its message arguments. -/
theorem c2_status_classification_amended (qid : String) (resp : statusResponse)
    (q : retStatus) (rest : List retStatus)
    (hs : resp.success = true) (hq : resp.queries = q :: rest) :
    ((checkQueryStatus qid resp).2 = none ↔
        (q.errorCode = "" ∧ (strToQueryStatus q.status).isRunning = false
          ∧ (strToQueryStatus q.status).isError = false))
    ∧ ((∃ e, (checkQueryStatus qid resp).2 = some e ∧ e.number = .errQueryIsRunning) ↔
        (q.errorCode = "" ∧ (strToQueryStatus q.status).isRunning = true))
    ∧ ((∃ e, (checkQueryStatus qid resp).2 = some e ∧ e.number ≠ .errQueryIsRunning) ↔
        (q.errorCode ≠ "" ∨ (strToQueryStatus q.status).isError = true))
    ∧ (q.errorCode ≠ "" →
        (checkQueryStatus qid resp).2 =
          some { number := .errQueryStatus, message := errMsgQueryStatus,
                 messageArgs := [q.errorCode, q.errorMessage],
                 includeQueryID := true, queryID := qid }) := by
  have hdisj := isRunning_isError_disjoint (strToQueryStatus q.status)
  have hred : checkQueryStatus qid resp =
      (if q.errorCode != "" then
        (some q,
         some { number := .errQueryStatus, message := errMsgQueryStatus,
                messageArgs := [q.errorCode, q.errorMessage],
                includeQueryID := true, queryID := qid })
      else if (strToQueryStatus q.status).isError then
        (some q,
         some { number := .errQueryReportedError,
                message := q.errorMessage ++ ": status from server: [" ++ q.status ++ "]",
                includeQueryID := true, queryID := qid })
      else if (strToQueryStatus q.status).isRunning then
        (some q,
         some { number := .errQueryIsRunning,
                message := q.errorMessage ++ ": status from server: [" ++ q.status ++ "]",
                includeQueryID := true, queryID := qid })
      else
        (some q, none)) := by
    rw [checkQueryStatus, hq]
    simp [hs]
  by_cases hec : q.errorCode = "" <;>
    rcases hre : (strToQueryStatus q.status).isError with _ | _ <;>
    rcases hrr : (strToQueryStatus q.status).isRunning with _ | _ <;>
    simp_all [hred]

/-- C2 witness: a successful response with status `SUCCESS` and no error
code is classified as success (nil error). -/
theorem c2_status_classification_amended_witness :
    (checkQueryStatus "qw"
      { success := true,
        queries := [{ status := "SUCCESS", errorCode := "", errorMessage := "" }] }).2
      = none :=
  ((c2_status_classification_amended "qw"
      { success := true,
        queries := [{ status := "SUCCESS", errorCode := "", errorMessage := "" }] }
      { status := "SUCCESS", errorCode := "", errorMessage := "" }
      [] rfl rfl).1).mpr ⟨rfl, rfl, rfl⟩

/-- C3: in `queryContextInternal`, a multi-statement response for which,
after `handleMultiQuery` handled the child results, the child result
identifiers field is empty and no chunk downloader was attached to the rows
object makes the call fail with the protocol-violation `SnowflakeError`
("ExecResponse for multi-statement request had no ResultIDs", number
`ErrQueryIDFormat`) instead of returning a rows object; the outcome is a
plain returned error with no retry path. -/
theorem c3_multi_no_result_ids (resp : execResponse) (submitSync : Bool)
    (attached : Nat)
    (hmulti : isMultiStmt resp.data = true)
    (hsync : (submitSync && resp.code == queryInProgressCode) = false)
    (hids : resp.data.resultIDs = "") (hatt : attached = 0) :
    queryContextInternalBuild resp submitSync attached =
      .failure { number := .errQueryIDFormat,
                 sqlState := resp.data.sqlState,
                 message := "ExecResponse for multi-statement request had no ResultIDs",
                 queryID := resp.data.queryID } := by
  subst hatt
  simp [queryContextInternalBuild, hmulti, hsync, hids]

/-- C3 witness: a concrete multi-statement response with empty result
identifiers and no attached downloader produces the protocol-violation
failure. -/
theorem c3_multi_no_result_ids_witness :
    queryContextInternalBuild
      { data := { rowTypeNames := ["multiple statement execution"],
                  statementTypeID := 0x1000, resultIDs := "",
                  sqlState := "02000", queryID := "qid-3" },
        code := "0", success := true }
      false 0
      = .failure { number := .errQueryIDFormat, sqlState := "02000",
                   message := "ExecResponse for multi-statement request had no ResultIDs",
                   queryID := "qid-3" } :=
  c3_multi_no_result_ids
    { data := { rowTypeNames := ["multiple statement execution"],
                statementTypeID := 0x1000, resultIDs := "",
                sqlState := "02000", queryID := "qid-3" },
      code := "0", success := true }
    false 0 (by decide) rfl rfl rfl

/-- C4: for every chunk fetch receiving a 200 response with at least the
two peekable bytes, the body is treated as gzip-compressed exactly when its
first two bytes are the gzip magic bytes 0x1f 0x8b — independent of the
declared content-encoding header — and in both branches the returned
reader is wrapped so that closing it releases the underlying HTTP response
body even though the gzip layer does not forward close. -/
theorem c4_gzip_magic_and_close (idx : Nat) (resp : chunkHTTPResponse)
    (h200 : resp.statusCode = 200) (hlen : 2 ≤ resp.body.length) :
    (∃ r, downloadChunkStreamHelper idx resp = .ok r
      ∧ (r.isGzipWrapped = true ↔ resp.body.take 2 = [0x1f, 0x8b])
      ∧ r.closeReleases = [resp.body])
    ∧ (∀ ce, downloadChunkStreamHelper idx { resp with contentEncoding := ce }
          = downloadChunkStreamHelper idx resp) := by
  obtain ⟨sc, ce0, body⟩ := resp
  have hsc : sc = 200 := h200
  subst hsc
  constructor
  · cases body with
    | nil => simp at hlen
    | cons b0 rest =>
      cases rest with
      | nil => simp at hlen
      | cons b1 tail =>
        by_cases hmagic : b0 = 0x1f ∧ b1 = 0x8b
        · obtain ⟨hm0, hm1⟩ := hmagic
          subst hm0; subst hm1
          exact ⟨.wrapReader (.gzipReader (.buf (.respBody (0x1f :: 0x8b :: tail))))
              (.respBody (0x1f :: 0x8b :: tail)),
            by simp [downloadChunkStreamHelper], by simp [Reader.isGzipWrapped],
            by simp [Reader.closeReleases, Reader.isReadCloser]⟩
        · have hbeq : (b0 == 0x1f && b1 == 0x8b) = false := by
            rcases Decidable.not_and_iff_or_not.mp hmagic with hc | hc <;> simp [hc]
          refine ⟨.wrapReader (.buf (.respBody (b0 :: b1 :: tail)))
              (.respBody (b0 :: b1 :: tail)),
            by simp [downloadChunkStreamHelper, hbeq], ?_,
            by simp [Reader.closeReleases, Reader.isReadCloser]⟩
          simp only [Reader.isGzipWrapped]
          constructor
          · intro hfalse
            exact absurd hfalse (by simp)
          · intro htake
            simp at htake
            exact absurd htake hmagic
  · intro ce
    rw [downloadChunkStreamHelper, downloadChunkStreamHelper]

/-- C4 witness: a 200 response whose body starts with the gzip magic is
gzip-wrapped and closing its reader releases the body; the declared
content-encoding header plays no role. -/
theorem c4_gzip_magic_and_close_witness :
    (∃ r, downloadChunkStreamHelper 0 { statusCode := 200, body := [0x1f, 0x8b, 1, 2] } = .ok r
      ∧ (r.isGzipWrapped = true ↔
          ([0x1f, 0x8b, 1, 2] : List Nat).take 2 = [0x1f, 0x8b])
      ∧ r.closeReleases = [[0x1f, 0x8b, 1, 2]])
    ∧ (∀ ce, downloadChunkStreamHelper 0
          { statusCode := 200, contentEncoding := ce, body := [0x1f, 0x8b, 1, 2] }
        = downloadChunkStreamHelper 0 { statusCode := 200, body := [0x1f, 0x8b, 1, 2] }) :=
  c4_gzip_magic_and_close 0 { statusCode := 200, body := [0x1f, 0x8b, 1, 2] } rfl
    (by decide)

/-- C5: decoding the textual timestamp cell "1549491451.123456789"
(local-time-zone timestamp, nanosecond fraction) yields the instant
1549491451123456789 nanoseconds since the epoch, and the malformed
numeric/timestamp strings "1234abcdef", "1234abc.def" and "1234.def" all
signal a conversion error instead of returning a value. -/
theorem c5_timestamp_decode :
    stringToValueTimestampLtz "1549491451.123456789" = .ok 1549491451123456789
    ∧ extractTimestamp "1234abcdef" = .error ()
    ∧ extractTimestamp "1234abc.def" = .error ()
    ∧ extractTimestamp "1234.def" = .error () := by
  refine ⟨?_, ?_, ?_, ?_⟩ <;> rfl

/-- C6 counterexample: the chunk-fetch error is claimed to include the HTTP
status code and a bounded excerpt of the response body, but responses with
different non-success statuses and different bodies produce the very same
error value, whose message arguments hold only the chunk index. -/
theorem c6_counterexample :
    downloadChunkStreamHelper 3 { statusCode := 403, body := [102, 111, 114] }
      = downloadChunkStreamHelper 3 { statusCode := 500, body := [] }
    ∧ downloadChunkStreamHelper 3 { statusCode := 403, body := [102, 111, 114] }
      = .error (.sf { number := .errFailedToGetChunk,
                      sqlState := SQLStateConnectionFailure,
                      message := errMsgFailedToGetChunk,
                      messageArgs := ["3"] }) := by
  constructor <;> rfl

/-- C6 (amended): for every chunk fetch receiving a non-success HTTP
status, the fetch returns the chunk-fetch `SnowflakeError`
(`ErrFailedToGetChunk`, connection-failure SQL state) whose message
arguments carry only the chunk index — the HTTP status and the response
body are logged but not included in the error — and no reader or decoded
chunk is returned. -/
theorem c6_chunk_fetch_error_amended (idx : Nat) (resp : chunkHTTPResponse)
    (h : resp.statusCode ≠ 200) :
    downloadChunkStreamHelper idx resp =
      .error (.sf { number := .errFailedToGetChunk,
                    sqlState := SQLStateConnectionFailure,
                    message := errMsgFailedToGetChunk,
                    messageArgs := [toString idx] }) := by
  simp [downloadChunkStreamHelper, h]

/-- C6 witness: a 403 response for chunk 7 yields the chunk-fetch error
carrying only the chunk index. -/
theorem c6_chunk_fetch_error_amended_witness :
    downloadChunkStreamHelper 7 { statusCode := 403, body := [1, 2, 3] }
      = .error (.sf { number := .errFailedToGetChunk,
                      sqlState := SQLStateConnectionFailure,
                      message := errMsgFailedToGetChunk,
                      messageArgs := ["7"] }) :=
  c6_chunk_fetch_error_amended 7 { statusCode := 403, body := [1, 2, 3] } (by decide)

/-- C7: within one connection's lifetime, two `getQueryResultResp` calls
with the same result path perform at most one network fetch: whenever a
first call succeeds, the repeated call reports the response from the
connection's cache under that path with no fetch; a call never evicts
cache entries, and teardown (`cleanup`) is what releases the cache —
nothing in the embedding depends on elapsed time. -/
theorem c7_result_resp_cached (fetch : String → Except Unit execResponse)
    (cache : execRespCache) (path : String) (r : execResponse)
    (cacheAfter : execRespCache) (fetched : Bool)
    (h : getQueryResultResp fetch cache path = .ok (r, cacheAfter, fetched)) :
    getQueryResultResp fetch cacheAfter path = .ok (r, cacheAfter, false)
    ∧ (∀ p v, cacheLoad cache p = some v → cacheLoad cacheAfter p = some v)
    ∧ cleanupCache cacheAfter = [] := by
  refine ?_
  cases hload : cacheLoad cache path with
  | some respd =>
    rw [getQueryResultResp, hload] at h
    simp only [Except.ok.injEq, Prod.mk.injEq] at h
    obtain ⟨h1, h2, h3⟩ := h
    subst h1; subst h2
    refine ⟨?_, ?_, rfl⟩
    · rw [getQueryResultResp, hload]
    · intro p v hv
      exact hv
  | none =>
    rw [getQueryResultResp, hload] at h
    cases hfetch : fetch path with
    | error e => rw [hfetch] at h; simp at h
    | ok respd =>
      rw [hfetch] at h
      simp only [Except.ok.injEq, Prod.mk.injEq] at h
      obtain ⟨h1, h2, h3⟩ := h
      subst h1; subst h2
      refine ⟨?_, ?_, rfl⟩
      · rw [getQueryResultResp]
        have hl : cacheLoad (cacheStore cache path respd) path = some respd := by
          simp [cacheStore, cacheLoad]
        rw [hl]
      · intro p v hv
        have hne : (path == p) = false := by
          by_cases hpp : path = p
          · subst hpp
            rw [hload] at hv
            exact absurd hv (by simp)
          · simp [hpp]
        simp [cacheStore, cacheLoad, hne, hv]

/-- C7 witness: with an empty cache, the first call fetches and the second
call is served from the cache without a fetch. -/
theorem c7_result_resp_cached_witness :
    getQueryResultResp (fun _ => .ok { code := "42" }) [] "/queries/abc/result"
      = .ok ({ code := "42" }, [("/queries/abc/result", { code := "42" })], true)
    ∧ (getQueryResultResp (fun _ => .ok { code := "42" })
        [("/queries/abc/result", { code := "42" })] "/queries/abc/result"
      = .ok ({ code := "42" }, [("/queries/abc/result", { code := "42" })], false)) :=
  ⟨rfl, (c7_result_resp_cached (fun _ => .ok { code := "42" }) [] "/queries/abc/result"
      { code := "42" } [("/queries/abc/result", { code := "42" })] true rfl).1⟩

/-- C8: evaluation of `decodeArrowChunk` on a chunk holding two record
batches of one row each.  The claim expects one entry per row across all
record batches concatenated in batch order (two rows here), but the source
rebinds `chunkRows` for each record, so only the final batch's single row
is returned even though the chunk's own accumulated row counter says two
rows were decoded. -/
theorem c8_multi_batch_rows_lost :
    (decodeArrowChunk ([{ numRows := 1, columns := [["a"]] },
                        { numRows := 1, columns := [["b"]] }] : List (RecordBatch String))).1
      = [["b"]]
    ∧ (decodeArrowChunk ([{ numRows := 1, columns := [["a"]] },
                          { numRows := 1, columns := [["b"]] }] : List (RecordBatch String))).2
      = 2
    ∧ (decodeArrowChunk ([{ numRows := 1, columns := [["a"]] },
                          { numRows := 1, columns := [["b"]] }] : List (RecordBatch String))).1.length
      ≠ 2 := by
  refine ⟨rfl, rfl, by decide⟩
